import Mathlib

/-!
Verification of the nofx auto-trader core against its specification.

The definitions below are a shallow embedding of the Go sources of the
repository (mainly `backend/pkg/trader/auto_trader.go`,
`backend/pkg/trader/margin_safety_check.go`, `backend/pkg/trader/constants.go`
and `backend/pkg/storage/trade.go`).  Go `float64` values are modelled as
rational numbers, `time.Time` values as integers (seconds, or milliseconds
where the source works in milliseconds), and fallible external calls
(exchange, market data, storage) as explicit boolean/`Option` inputs.
Functions keep the names of the Go functions they embed.
-/

namespace Nofx

/-- Risk constants from `backend/pkg/trader/constants.go`. -/
def MaxMarginUsagePct : ℚ := 90

/-- Maximum margin usage when trading a single symbol (constants.go). -/
def MaxMarginUsagePctSingleSymbol : ℚ := 80

/-- Minimum reserved balance as a percentage of total equity (constants.go). -/
def MinReserveBalancePct : ℚ := 5

/-- Minimum safe distance (percent) between entry and estimated liquidation
price (constants.go). -/
def MinSafeDistancePct : ℚ := 3

/-- Maintenance margin rate (constants.go). -/
def MaintenanceMarginRate : ℚ := 1 / 100

/-- Retry timeout (seconds) after a failed force close
(`PositionStopLossRetryTimeout = 5 * time.Minute` in constants.go). -/
def PositionStopLossRetryTimeoutSec : Int := 5 * 60

/-- An LLM trading decision (`decision.Decision`), restricted to the fields
the trader core reads. -/
structure Decision where
  symbol : String
  action : String
  leverage : Int
  positionSizeUSD : ℚ
  stopLoss : ℚ
  takeProfit : ℚ
  reasoning : String
  exitReasoning : String
deriving Repr, DecidableEq

/-- Account data of `decision.Context.Account` used by the margin check. -/
structure AccountCtx where
  totalEquity : ℚ
  marginUsed : ℚ
  availableBalance : ℚ
  positionCount : Nat
deriving Repr, DecidableEq

/-- The part of `decision.Context` read by `checkMarginAndBalanceSafety`:
account aggregates plus the symbols of the currently open positions
(in `ctx.Positions` order). -/
structure TradingCtx where
  account : AccountCtx
  positionSymbols : List String
deriving Repr, DecidableEq

/-- Error cases of `checkMarginAndBalanceSafety`
(`backend/pkg/trader/margin_safety_check.go`), one constructor per
`return fmt.Errorf(...)` site. -/
inductive MarginCheckError where
  | invalidPrice
  | marginUsageExceeded
  | insufficientBalance
  | liquidationTooClose
  | stopLossWrongSide
  | stopLossBeyondLiquidation
deriving Repr, DecidableEq

/-- Single-symbol detection from step 3.5 of `checkMarginAndBalanceSafety`:
no current positions, or all current positions share the decision's symbol
(the Go builds a set of position symbols and checks whether it is the
singleton of the decision's symbol). -/
def isSingleSymbol (ctx : TradingCtx) (sym : String) : Bool :=
  if ctx.account.positionCount = 0 then
    true
  else
    match ctx.positionSymbols.eraseDups with
    | [s] => s = sym
    | _ => false

/-- Embedding of `checkMarginAndBalanceSafety`
(margin_safety_check.go, lines 11-149).  `currentPrice` is the price
returned by `market.Get(decision.Symbol)`; the market fetch itself is
assumed to have succeeded.  Returns `none` when every check passes. -/
def checkMarginAndBalanceSafety (ctx : TradingCtx) (dec : Decision)
    (currentPrice : ℚ) : Option MarginCheckError :=
  if currentPrice ≤ 0 then some .invalidPrice
  else
    let positionValue := dec.positionSizeUSD
    let marginRequired := positionValue / (dec.leverage : ℚ)
    let totalMarginAfterOpen := ctx.account.marginUsed + marginRequired
    let totalMarginUsedPct :=
      if ctx.account.totalEquity > 0 then
        totalMarginAfterOpen / ctx.account.totalEquity * 100
      else 0
    let maxMarginUsagePct :=
      if isSingleSymbol ctx dec.symbol then MaxMarginUsagePctSingleSymbol
      else MaxMarginUsagePct
    if totalMarginUsedPct > maxMarginUsagePct then some .marginUsageExceeded
    else
      let minReserveBalance := ctx.account.totalEquity * (MinReserveBalancePct / 100)
      let availableBalanceAfterMargin := ctx.account.availableBalance - marginRequired
      if availableBalanceAfterMargin < minReserveBalance then some .insufficientBalance
      else
        let marginRate := 1 / (dec.leverage : ℚ) + MaintenanceMarginRate
        let estimatedLiquidationPrice :=
          if dec.action = "open_long" then currentPrice * (1 - marginRate)
          else currentPrice * (1 + marginRate)
        let priceDistancePct :=
          if dec.action = "open_long" then
            (currentPrice - estimatedLiquidationPrice) / currentPrice * 100
          else
            (estimatedLiquidationPrice - currentPrice) / currentPrice * 100
        if priceDistancePct < MinSafeDistancePct then some .liquidationTooClose
        else if dec.stopLoss > 0 then
          if dec.action = "open_long" then
            if dec.stopLoss ≥ currentPrice then some .stopLossWrongSide
            else if dec.stopLoss ≤ estimatedLiquidationPrice then
              some .stopLossBeyondLiquidation
            else none
          else
            if dec.stopLoss ≤ currentPrice then some .stopLossWrongSide
            else if dec.stopLoss ≥ estimatedLiquidationPrice then
              some .stopLossBeyondLiquidation
            else none
        else none

/-- Risk-governor state of `AutoTrader` (fields guarded by `riskMu`). -/
structure RiskState where
  peakEquity : ℚ
  dailyPnL : ℚ
  dailyStartEquity : ℚ
deriving Repr, DecidableEq

/-- Risk configuration fields read by the account-level checks. -/
structure RiskConfig where
  maxDrawdown : ℚ
  maxDailyLoss : ℚ
deriving Repr, DecidableEq

/-- Peak-equity / daily-PnL update at the top of
`checkAndExecuteForcedStopLoss` (auto_trader.go lines 1245-1261).
`withinDay` is `time.Since(at.lastResetTime) < 24*time.Hour`. -/
def updateRiskAtCheck (rs : RiskState) (totalEquity : ℚ) (withinDay : Bool) :
    RiskState :=
  let peak := if totalEquity > rs.peakEquity then totalEquity else rs.peakEquity
  let dailyPnL :=
    if withinDay then totalEquity - rs.dailyStartEquity else rs.dailyPnL
  { peakEquity := peak, dailyPnL := dailyPnL,
    dailyStartEquity := rs.dailyStartEquity }

/-- Which account-level halt fired. -/
inductive HaltKind where
  | drawdown
  | dailyLoss
deriving Repr, DecidableEq

/-- Account-level risk checks of `checkAndExecuteForcedStopLoss`
(auto_trader.go lines 1263-1311).  The drawdown check runs first and
returns early; the daily-loss check runs second.  `rs` is the state
after `updateRiskAtCheck` (the Go reads the snapshots
`currentPeakEquity`, `currentDailyPnL`, `currentDailyStartEquity`). -/
def checkAccountRiskHalt (cfg : RiskConfig) (rs : RiskState)
    (totalEquity : ℚ) : Option HaltKind :=
  if cfg.maxDrawdown > 0 ∧ rs.peakEquity > 0 ∧
      (rs.peakEquity - totalEquity) / rs.peakEquity * 100 > cfg.maxDrawdown then
    some .drawdown
  else if cfg.maxDailyLoss > 0 ∧ rs.dailyStartEquity > 0 ∧
      rs.dailyPnL / rs.dailyStartEquity * 100 < -cfg.maxDailyLoss then
    some .dailyLoss
  else
    none

/-- Daily reset performed by `runCycle` when `buildTradingContext` FAILS and
a daily reset is due (auto_trader.go lines 334-343): the fallback sets
`dailyStartEquity`, `dailyPnL` and also `peakEquity` from `initialBalance`. -/
def runCycleResetOnCtxFailure (rs : RiskState) (initialBalance : ℚ)
    (needReset : Bool) : RiskState :=
  if needReset then
    { peakEquity := initialBalance, dailyPnL := 0,
      dailyStartEquity := initialBalance }
  else rs

/-- Daily reset performed by `runCycle` when the context build succeeds
(auto_trader.go lines 363-380): `dailyStartEquity := totalEquity`,
`dailyPnL := 0`, `peakEquity := max(peakEquity, totalEquity)`. -/
def runCycleDailyReset (rs : RiskState) (totalEquity : ℚ)
    (needReset : Bool) : RiskState :=
  if needReset then
    { peakEquity :=
        if totalEquity > rs.peakEquity then totalEquity else rs.peakEquity,
      dailyPnL := 0,
      dailyStartEquity := totalEquity }
  else rs

/-- Outcome of the per-position watchdog check. -/
inductive WatchdogAct where
  | closeStopLoss
  | closeTakeProfit
  | keep
deriving Repr, DecidableEq

/-- Per-position stop-loss / take-profit decision of
`checkPositionStopLossOnly` (auto_trader.go lines 1361-1444):
a configured `positionStopLossPct` of 0 is replaced by the default 10;
the take-profit check requires `positionTakeProfitPct > 0`. -/
def checkPositionStopLoss (cfgStopLossPct cfgTakeProfitPct : ℚ)
    (side : String) (entryPrice markPrice : ℚ) (leverage : ℚ) : WatchdogAct :=
  let positionStopLossPct := if cfgStopLossPct = 0 then 10 else cfgStopLossPct
  let pnlPct :=
    if side = "long" then (markPrice - entryPrice) / entryPrice * leverage * 100
    else (entryPrice - markPrice) / entryPrice * leverage * 100
  if pnlPct < 0 ∧ -pnlPct ≥ positionStopLossPct then .closeStopLoss
  else if cfgTakeProfitPct > 0 ∧ pnlPct > 0 ∧ pnlPct ≥ cfgTakeProfitPct then
    .closeTakeProfit
  else .keep

/-- Result of `CancelAllOrders`: success, a recognized "no orders" error
(treated as success), or another error. -/
inductive CancelResult where
  | ok
  | errNoOrders
  | errOther
deriving Repr, DecidableEq

/-- Inputs of one `executeUpdateStopLoss` run (auto_trader.go lines
2567-2831).  External interactions are explicit inputs:
`hasPosition` is whether `findPositionBySymbol` found a position (whose
side is `positionSide` and quantity `positionQty`), `marketOk` whether
`market.Get` succeeded, `storedStopLoss`/`storedTakeProfit` are the values
in the position-logic store (`0` meaning unset), and the `...Ok` flags are
the outcomes of the exchange order calls and the final store write. -/
structure UpdateSLInput where
  decStopLoss : ℚ
  decTakeProfit : ℚ
  hasPosition : Bool
  positionSide : String
  positionQty : ℚ
  marketOk : Bool
  currentPrice : ℚ
  storedStopLoss : ℚ
  storedTakeProfit : ℚ
  cancelResult : CancelResult
  setSLOk : Bool
  setTPOk : Bool
  rollbackOk : Bool
  saveOk : Bool
deriving Repr, DecidableEq

/-- Return sites of `executeUpdateStopLoss`, one constructor per `return`:
`skipped` is the 0.5 percent no-op path (returns nil with a `SKIPPED:`
marker), `success` the final nil return, the rest the error returns. -/
inductive UpdateSLOutcome where
  | errStopLossNonPositive
  | errNoPosition
  | skipped
  | errQtyInvalid
  | errMarket
  | errBadPrice
  | errWrongSide
  | errTrailing
  | errStopGeTakeProfit
  | errPriceNotBetween
  | errCancel
  | errSetSLRolledBack
  | errSetSLRollbackFailed
  | errSetTPRolledBack
  | errSetTPRollbackFailed
  | success
deriving Repr, DecidableEq

/-- Embedding of `executeUpdateStopLoss`.  The second component is the
stop-loss value stored in the position-logic store after the call (the
Go persists via `SaveStopLossAndTakeProfit(dec.StopLoss, saveTakeProfit)`
only on the success path, and a failed save merely logs, leaving the
stored value unchanged).  The Go's re-read of `positionAmt` into
`actualQuantity` (lines 2617-2622) compares `|q|` with `|q|` and can never
change the quantity, so it is not modelled. -/
def executeUpdateStopLoss (inp : UpdateSLInput) : UpdateSLOutcome × ℚ :=
  -- step 1: parameter validation
  if inp.decStopLoss ≤ 0 then (.errStopLossNonPositive, inp.storedStopLoss)
  -- step 2: find the position
  else if ¬ inp.hasPosition then (.errNoPosition, inp.storedStopLoss)
  -- step 3: skip when the absolute relative change against a positive
  -- stored stop stays below 0.5 percent
  else if inp.storedStopLoss > 0 ∧
      (if (inp.decStopLoss - inp.storedStopLoss) / inp.storedStopLoss < 0
        then -((inp.decStopLoss - inp.storedStopLoss) / inp.storedStopLoss)
        else (inp.decStopLoss - inp.storedStopLoss) / inp.storedStopLoss)
        < 5 / 1000 then
    (.skipped, inp.storedStopLoss)
  -- step 4: quantity and market price
  else if inp.positionQty ≤ 0 then (.errQtyInvalid, inp.storedStopLoss)
  else if ¬ inp.marketOk then (.errMarket, inp.storedStopLoss)
  else if inp.currentPrice ≤ 0 then (.errBadPrice, inp.storedStopLoss)
  -- step 5: side-correct relation to the current price
  else if inp.positionSide = "long" ∧ inp.decStopLoss ≥ inp.currentPrice then
    (.errWrongSide, inp.storedStopLoss)
  else if inp.positionSide ≠ "long" ∧ inp.decStopLoss ≤ inp.currentPrice then
    (.errWrongSide, inp.storedStopLoss)
  -- trailing check against the stored stop
  else if inp.storedStopLoss > 0 ∧ inp.positionSide = "long" ∧
      inp.decStopLoss < inp.storedStopLoss then
    (.errTrailing, inp.storedStopLoss)
  else if inp.storedStopLoss > 0 ∧ inp.positionSide ≠ "long" ∧
      inp.decStopLoss > inp.storedStopLoss then
    (.errTrailing, inp.storedStopLoss)
  -- relative ordering when a take profit is supplied alongside
  -- (the nested Go checks of lines 2674-2694, flattened: conditions are
  -- mutually exclusive in the Go nesting order)
  else if inp.decTakeProfit > 0 ∧ inp.positionSide = "long" ∧
      inp.decStopLoss ≥ inp.decTakeProfit then (.errStopGeTakeProfit, inp.storedStopLoss)
  else if inp.decTakeProfit > 0 ∧ inp.positionSide = "long" ∧
      (inp.decStopLoss ≥ inp.currentPrice ∨
        inp.decTakeProfit ≤ inp.currentPrice) then (.errPriceNotBetween, inp.storedStopLoss)
  else if inp.decTakeProfit > 0 ∧ inp.positionSide ≠ "long" ∧
      inp.decStopLoss ≤ inp.decTakeProfit then (.errStopGeTakeProfit, inp.storedStopLoss)
  else if inp.decTakeProfit > 0 ∧ inp.positionSide ≠ "long" ∧
      (inp.decTakeProfit ≥ inp.currentPrice ∨
        inp.decStopLoss ≤ inp.currentPrice) then (.errPriceNotBetween, inp.storedStopLoss)
  -- step 8: cancel existing orders ("no orders" counts as success)
  else if inp.cancelResult = CancelResult.errOther then (.errCancel, inp.storedStopLoss)
  -- step 9: place the new stop-loss order
  else if ¬ inp.setSLOk then
    if inp.rollbackOk then (.errSetSLRolledBack, inp.storedStopLoss)
    else (.errSetSLRollbackFailed, inp.storedStopLoss)
  -- step 10: re-place the preserved take profit (step 7's preserved value
  -- is `storedTakeProfit` when no take profit was supplied, else the
  -- supplied one; inlined into the condition)
  else if (if inp.decTakeProfit ≤ 0 ∧ inp.storedTakeProfit > 0
        then inp.storedTakeProfit else inp.decTakeProfit) > 0 ∧
      ¬ inp.setTPOk then
    if inp.rollbackOk then (.errSetTPRolledBack, inp.storedStopLoss)
    else (.errSetTPRollbackFailed, inp.storedStopLoss)
  else
    -- step 11: persist (a failed save only logs)
    if inp.saveOk then (.success, inp.decStopLoss)
    else (.success, inp.storedStopLoss)

/-- Inputs of an AI-driven close (`executeCloseLongWithRecord`,
auto_trader.go lines 2075-2182; `executeCloseShortWithRecord` is
symmetric).  `alreadyForced` is whether `forcedClosedPositions` holds the
`(symbol, side)` key, `lockPresentBefore` whether `closingPositions`
already holds a mutex for the key. -/
structure CloseInput where
  alreadyForced : Bool
  lockPresentBefore : Bool
  marketOk : Bool
  closeOk : Bool
deriving Repr, DecidableEq

/-- Return sites of `executeCloseLongWithRecord`. -/
inductive CloseOutcome where
  | skippedForced
  | errMarket
  | errClose
  | success
deriving Repr, DecidableEq

/-- Embedding of `executeCloseLongWithRecord`.  The boolean result is
whether the `closingPositions` lock-table still holds an entry for the
`(symbol, side)` key after the call.  The forced-registry double check
after acquiring the lock coincides with the first check in this
sequential model.  `getOrCreateClosingLock` inserts the entry;
`cleanupClosingLock` is called only on the success path (the comment at
line 2092: keep the lock on failure so retries serialize). -/
def executeCloseLong (inp : CloseInput) : CloseOutcome × Bool :=
  if inp.alreadyForced then
    -- returns before touching the lock table
    (.skippedForced, inp.lockPresentBefore)
  else
    -- lock acquired: entry now present
    if ¬ inp.marketOk then (.errMarket, true)
    else if ¬ inp.closeOk then (.errClose, true)
    else (.success, false)

/-- Inputs of `forceClosePosition` (auto_trader.go lines 1607-1720).
`markTime` is the forced-registry entry for the key (if any), `now` the
current time in seconds. -/
structure ForceCloseInput where
  markTime : Option Int
  now : Int
  lockPresentBefore : Bool
  marketOk : Bool
  closeOk : Bool
deriving Repr, DecidableEq

/-- Return sites of `forceClosePosition`. -/
inductive ForceCloseOutcome where
  | skippedMarked
  | errMarket
  | errClose
  | success
deriving Repr, DecidableEq

/-- Embedding of `forceClosePosition`.  Components: outcome, whether the
lock-table entry for the key is present after the call, and the
forced-registry entry for the key after the call.  The function installs
`defer cleanupClosingLock(posKey)` right after acquiring the lock
(line 1631), so the entry is removed on EVERY path that reaches the lock,
including failed closes.  A close failure (and a success) stamps the
registry with `now`. -/
def forceClosePosition (inp : ForceCloseInput) :
    ForceCloseOutcome × Bool × Option Int :=
  match inp.markTime with
  | some t =>
    if ¬ (inp.now - t > PositionStopLossRetryTimeoutSec) then
      -- fast-path skip, before the lock table is touched
      (.skippedMarked, inp.lockPresentBefore, some t)
    else
      -- mark expired: deleted, then proceed under the lock
      if ¬ inp.marketOk then (.errMarket, false, none)
      else if ¬ inp.closeOk then (.errClose, false, some inp.now)
      else (.success, false, some inp.now)
  | none =>
    if ¬ inp.marketOk then (.errMarket, false, none)
    else if ¬ inp.closeOk then (.errClose, false, some inp.now)
    else (.success, false, some inp.now)

/-- One executed action inside a decision record (`logger.DecisionAction`),
restricted to the fields the trade-history recorder reads.  Timestamps are
seconds. -/
structure DAction where
  action : String
  symbol : String
  price : ℚ
  quantity : ℚ
  leverage : Int
  orderID : Int
  timestamp : Int
  success : Bool
deriving Repr, DecidableEq

/-- A persisted decision record (`storage.DecisionRecord`) as read back by
`recordTradeHistory`: the cycle number and the parsed `Decisions` array. -/
structure DecRecord where
  cycleNumber : Int
  decisions : List DAction
deriving Repr, DecidableEq

/-- A row of the `trades` table (`storage.TradeRecord`).  `closeTime = none`
models the SQL `NULL`.  `duration` is kept in seconds. -/
structure TradeRow where
  tradeID : String
  symbol : String
  side : String
  openTime : Int
  openPrice : ℚ
  openQuantity : ℚ
  openLeverage : Int
  openOrderID : Int
  openReason : String
  openCycleNum : Int
  closeTime : Option Int
  closePrice : ℚ
  closeQuantity : ℚ
  closeOrderID : Int
  closeReason : String
  closeCycleNum : Int
  isForced : Bool
  forcedReason : String
  duration : Int
  positionValue : ℚ
  marginUsed : ℚ
  pnl : ℚ
  pnlPct : ℚ
  wasStopLoss : Bool
  success : Bool
  error : String
  entryLogic : String
  exitLogic : String
  updateSLLogic : String
  updateTPLogic : String
  closeLogic : String
  forcedCloseLogic : String
deriving Repr, DecidableEq

/-- Embedding of `buildTradeRecord` (auto_trader.go lines 3215-3266).
The logic fields are empty because neither `logger.TradeRecord` nor the
`dbTrade` conversion at the call sites carries them. -/
def buildTradeRecord (symbol side : String) (openAction closeAction : DAction)
    (openCycleNum : Int) (closeCycleNum : Int) (isForced : Bool)
    (forcedReason openReason closeReason : String) : TradeRow :=
  let pnl :=
    if side = "long" then
      openAction.quantity * (closeAction.price - openAction.price)
    else
      openAction.quantity * (openAction.price - closeAction.price)
  let positionValue := openAction.quantity * openAction.price
  let marginUsed := positionValue / (openAction.leverage : ℚ)
  let pnlPct := if marginUsed > 0 then pnl / marginUsed * 100 else 0
  let duration := closeAction.timestamp - openAction.timestamp
  let tradeID := symbol ++ "_" ++ side ++ "_" ++ toString openAction.timestamp
  { tradeID := tradeID
    symbol := symbol
    side := side
    openTime := openAction.timestamp
    openPrice := openAction.price
    openQuantity := openAction.quantity
    openLeverage := openAction.leverage
    openOrderID := openAction.orderID
    openReason := openReason
    openCycleNum := openCycleNum
    closeTime := some closeAction.timestamp
    closePrice := closeAction.price
    closeQuantity := closeAction.quantity
    closeOrderID := closeAction.orderID
    closeReason := closeReason
    closeCycleNum := closeCycleNum
    isForced := isForced
    forcedReason := forcedReason
    duration := duration
    positionValue := positionValue
    marginUsed := marginUsed
    pnl := pnl
    pnlPct := pnlPct
    wasStopLoss := isForced ∧ pnl < 0
    success := openAction.success ∧ closeAction.success
    error := ""
    entryLogic := ""
    exitLogic := ""
    updateSLLogic := ""
    updateTPLogic := ""
    closeLogic := ""
    forcedCloseLogic := "" }

/-- Embedding of `TradeStorage.LogTrade` (storage/trade.go lines 167-217):
a plain `INSERT` into the `trades` table, whose schema has
`trade_id TEXT PRIMARY KEY` and `UNIQUE(symbol, open_time)`.  The boolean
is whether the insert succeeded; a constraint violation leaves the table
unchanged (the callers only log the returned error). -/
def logTrade (table : List TradeRow) (row : TradeRow) :
    List TradeRow × Bool :=
  if table.any (fun r =>
      r.tradeID = row.tradeID ∨ (r.symbol = row.symbol ∧ r.openTime = row.openTime)) then
    (table, false)
  else
    (table ++ [row], true)

/-- Embedding of `TradeStorage.GetOpenTradeByTime` (storage/trade.go lines
364-387): rows of the symbol whose `open_time` lies within plus or minus
10 seconds of `openTime`, ordered by absolute distance, limit 1.  On a
distance tie SQLite's ordering is unspecified; this model keeps the
earliest-scanned row. -/
def getOpenTradeByTime (table : List TradeRow) (symbol : String)
    (openTime : Int) : Option TradeRow :=
  let window := table.filter (fun r =>
    r.symbol = symbol ∧ openTime - 10 ≤ r.openTime ∧ r.openTime ≤ openTime + 10)
  window.foldl
    (fun best r =>
      match best with
      | none => some r
      | some b =>
        if |r.openTime - openTime| < |b.openTime - openTime| then some r
        else best)
    none

/-- The `hasBeenClosed` scan inside `recordTradeHistory` (auto_trader.go
lines 2889-2914): among the record holding the candidate open and all
later records, is there a successful close of the same symbol and side
strictly before `closeTime`? -/
def hasBeenClosed (laterRecords : List DecRecord) (symbol side : String)
    (closeTime : Int) : Bool :=
  laterRecords.any (fun rec =>
    rec.decisions.any (fun a =>
      a.success ∧ a.symbol = symbol ∧ a.action = "close_" ++ side ∧
        a.timestamp < closeTime))

/-- One step of the open-action search: scan the decisions of record `r`
(in order) for a successful matching open that is not after `closeTime`
and has not been closed again by a record in `laterIncl` (which starts
with `r` itself, like the Go inner loop `for j := i; ...`). -/
def findOpenInRecord (r : DecRecord) (laterIncl : List DecRecord)
    (symbol side : String) (closeTime : Int) : Option (DAction × Int) :=
  (r.decisions.find? (fun a =>
    a.success ∧ a.symbol = symbol ∧ a.action = "open_" ++ side ∧
      ¬ (a.timestamp > closeTime) ∧
      ¬ hasBeenClosed laterIncl symbol side closeTime)).map
    (fun a => (a, r.cycleNumber))

/-- The outer loop of the open-action search in `recordTradeHistory`
(lines 2858-2928): iterate the records from the newest (last index) to the
oldest; `revRecs` is the unprocessed part in reversed order and `later`
the already-processed (newer) records in original order. -/
def findOpenActionRev (revRecs later : List DecRecord) (symbol side : String)
    (closeTime : Int) : Option (DAction × Int) :=
  match revRecs with
  | [] => none
  | r :: rest =>
    match findOpenInRecord r (r :: later) symbol side closeTime with
    | some res => some res
    | none => findOpenActionRev rest (r :: later) symbol side closeTime

/-- Search entry point: records are stored oldest-first, and the Go loop
`for i := len(records) - 1; i >= 0; i--` walks them newest-first. -/
def findOpenAction (records : List DecRecord) (symbol side : String)
    (closeTime : Int) : Option (DAction × Int) :=
  findOpenActionRev records.reverse [] symbol side closeTime

/-- How `recordTradeHistory` ended. -/
inductive RecordPath where
  | fallbackFromPosition
  | insertedNewRow
  | insertFailedDuplicate
deriving Repr, DecidableEq

/-- Embedding of `recordTradeHistory` (auto_trader.go lines 2834-2978).
It reads the latest decision records, searches them for the matching open
action, and, when one is found, builds a complete row with
`buildTradeRecord` and INSERTs it via `LogTrade`.  It performs no
`GetOpenTradeByTime`-style query and no `UpdateTrade`.  When no open
action is found it falls back to `recordTradeHistoryFromPosition`
(modelled as the `fallbackFromPosition` outcome; that path, lines
2986-3212, likewise ends in a `LogTrade` insert).  Returns the new table
contents and which path was taken. -/
def recordTradeHistory (side : String) (dec : Decision) (closeAction : DAction)
    (isForced : Bool) (forcedReason : String) (records : List DecRecord)
    (callCount : Int) (table : List TradeRow) :
    List TradeRow × RecordPath :=
  match findOpenAction records dec.symbol side closeAction.timestamp with
  | none => (table, .fallbackFromPosition)
  | some (openAction, openCycleNum) =>
    let trade := buildTradeRecord dec.symbol side openAction closeAction
      openCycleNum callCount isForced forcedReason dec.reasoning dec.reasoning
    match logTrade table trade with
    | (table', true) => (table', .insertedNewRow)
    | (table', false) => (table', .insertFailedDuplicate)

/-- Operations on the trade store (`TradeStorage`).  `executeOpenLongWithRecord`
emits none of them; the close/sync paths emit `logTradeOp`. -/
inductive TradeStoreOp where
  | createTradeOp (row : TradeRow)
  | updateTradeOp (row : TradeRow)
  | logTradeOp (row : TradeRow)
  | queryOpenTradeByTime (symbol : String) (openTime : Int)
deriving Repr, DecidableEq

/-- Return sites of `executeOpenLongWithRecord`. -/
inductive OpenOutcome where
  | errAlreadyHasPosition
  | errCtxBuild
  | errMarginCheck (e : MarginCheckError)
  | errRaceGuard
  | errMarket
  | errBadPrice
  | errFormatQty
  | errQtyTooSmall
  | errOpenOrder
  | success
deriving Repr, DecidableEq

/-- Side effects of a completed `executeOpenLongWithRecord` run. -/
structure OpenEffects where
  savedFirstSeen : Bool
  savedStopTakeToLogic : Bool
  savedEntryLogic : Bool
  savedExitLogic : Bool
  submittedQuantity : ℚ
  tradeStoreOps : List TradeStoreOp
deriving Repr, DecidableEq

/-- Inputs of `executeOpenLongWithRecord` (auto_trader.go lines 1768-1919).
`formatQty` models `FormatQuantity` (exchange lot rounding);
`hasSameSidePosition` covers both position checks (idempotency guard and
race guard re-check, which coincide in this sequential model);
`currentPrice` is the `market.Get` price. -/
structure OpenInput where
  dec : Decision
  hasSameSidePosition : Bool
  ctxOk : Bool
  ctx : TradingCtx
  marketOk : Bool
  currentPrice : ℚ
  formatQty : ℚ → ℚ
  openOk : Bool

/-- Embedding of `executeOpenLongWithRecord`.  On success it records the
first-seen time, saves stop/take and entry/exit logic to the
position-logic store, and returns — it performs no trade-store operation
at all (`tradeStoreOps` collects any, and stays empty). -/
def executeOpenLong (inp : OpenInput) : OpenOutcome × OpenEffects :=
  let noEffects : OpenEffects :=
    { savedFirstSeen := false, savedStopTakeToLogic := false,
      savedEntryLogic := false, savedExitLogic := false,
      submittedQuantity := 0, tradeStoreOps := [] }
  if inp.hasSameSidePosition then (.errAlreadyHasPosition, noEffects)
  else if ¬ inp.ctxOk then (.errCtxBuild, noEffects)
  else
    match checkMarginAndBalanceSafety inp.ctx inp.dec inp.currentPrice with
    | some e => (.errMarginCheck e, noEffects)
    | none =>
      if ¬ inp.marketOk then (.errMarket, noEffects)
      else if inp.currentPrice ≤ 0 then (.errBadPrice, noEffects)
      else
        let quantity := inp.dec.positionSizeUSD / inp.currentPrice
        let formattedQuantity := inp.formatQty quantity
        let minQuantity := (1 / 1000) / inp.currentPrice
        if formattedQuantity < minQuantity then (.errQtyTooSmall, noEffects)
        else if ¬ inp.openOk then (.errOpenOrder, noEffects)
        else
          (.success,
            { savedFirstSeen := true,
              savedStopTakeToLogic := inp.dec.stopLoss > 0 ∨ inp.dec.takeProfit > 0,
              savedEntryLogic := inp.dec.reasoning ≠ "",
              savedExitLogic := inp.dec.reasoning ≠ "" ∧ inp.dec.exitReasoning ≠ "",
              submittedQuantity := formattedQuantity,
              tradeStoreOps := [] })

/-- A venue fill as consumed by `SyncManualTradesFromExchange`
(auto_trader.go lines 3799-3929), with the string fields already parsed
to numbers.  `time` is the raw venue timestamp (the code auto-detects
seconds vs milliseconds). -/
structure Fill where
  symbol : String
  orderId : Int
  side : String
  price : ℚ
  qty : ℚ
  realizedPnl : ℚ
  time : Int
deriving Repr, DecidableEq

/-- Timestamp auto-detection: raw values below `1e12` are seconds and are
canonicalized to milliseconds, larger values are already milliseconds. -/
def decodeTimeMs (t : Int) : Int :=
  if t < 1000000000000 then t * 1000 else t

/-- An order-id aggregate of close fills (the `aggregatedTrade` struct). -/
structure AggTrade where
  orderId : Int
  symbol : String
  side : String
  tradeSide : String
  totalQty : ℚ
  weightedPrice : ℚ
  firstTime : Int
  lastTime : Int
  totalRealizedPnl : ℚ
deriving Repr, DecidableEq

/-- Merge one close fill into the aggregate of its order id
(auto_trader.go lines 3896-3928). -/
def mergeFill (agg : AggTrade) (price qty pnl : ℚ) (t : Int) : AggTrade :=
  let newTotalValue := agg.weightedPrice * agg.totalQty + price * qty
  let totalQty := agg.totalQty + qty
  { agg with
    totalQty := totalQty
    weightedPrice := newTotalValue / totalQty
    totalRealizedPnl := agg.totalRealizedPnl + pnl
    firstTime := if t < agg.firstTime then t else agg.firstTime
    lastTime := if t > agg.lastTime then t else agg.lastTime }

/-- Upsert into the order-id keyed aggregation (Go uses a map keyed by
order id; this model keeps first-seen order, which fixes the map's
iteration order without changing any per-order content). -/
def upsertAgg (aggs : List AggTrade) (f : Fill) (tradeSide : String)
    (t : Int) : List AggTrade :=
  if aggs.any (fun a => a.orderId = f.orderId) then
    aggs.map (fun a =>
      if a.orderId = f.orderId then mergeFill a f.price f.qty f.realizedPnl t
      else a)
  else
    aggs ++ [{ orderId := f.orderId, symbol := f.symbol, side := f.side,
               tradeSide := tradeSide, totalQty := f.qty,
               weightedPrice := f.price, firstTime := t, lastTime := t,
               totalRealizedPnl := f.realizedPnl }]

/-- The close-fill aggregation loop of `SyncManualTradesFromExchange`
(lines 3799-3929): skip fills without a symbol or order id, fills whose
close order id is already recorded locally, fills with zero realized PnL
(opens), and fills with an unrecognized side; aggregate the remainder by
order id.  `SELL` closes a long, `BUY` closes a short. -/
def aggregateCloseFills (fills : List Fill) (localCloseOrderIds : List Int) :
    List AggTrade :=
  fills.foldl
    (fun aggs f =>
      if f.symbol = "" then aggs
      else if f.orderId = 0 then aggs
      else if localCloseOrderIds.contains f.orderId then aggs
      else if f.realizedPnl = 0 then aggs
      else
        let tradeSide :=
          if f.side = "SELL" then "long"
          else if f.side = "BUY" then "short"
          else ""
        if tradeSide = "" then aggs
        else upsertAgg aggs f tradeSide (decodeTimeMs f.time))
    []

/-- Search for the matching open fill of a close group (lines 3942-3983):
opposite side, zero realized PnL, strictly before the group's last fill
time; among candidates keep the one with the greatest time. -/
def findBestOpenFill (fills : List Fill) (agg : AggTrade) : Option Fill :=
  fills.foldl
    (fun best f =>
      if f.symbol ≠ agg.symbol then best
      else
        let isOppositeSide :=
          (agg.tradeSide = "long" ∧ f.side = "BUY") ∨
            (agg.tradeSide = "short" ∧ f.side = "SELL")
        if isOppositeSide ∧ f.realizedPnl = 0 ∧
            decodeTimeMs f.time < agg.lastTime then
          match best with
          | none => some f
          | some b =>
            if decodeTimeMs f.time > decodeTimeMs b.time then some f else best
        else best)
    none

/-- Leverage recovery for a reconciled trade (lines 3998-4044): the still
open same-(symbol, side) position, else a recent local trade of the same
symbol and side opened within 24 h before the close, else the configured
leverage (BTC/ETH or altcoin). -/
def resolveOpenLeverage (positions : List (String × String × Int))
    (localTrades : List TradeRow) (agg : AggTrade)
    (cfgBTCETHLeverage cfgAltcoinLeverage : Int) : Int :=
  let fromPosition :=
    positions.find? (fun p => p.1 = agg.symbol ∧ p.2.1 = agg.tradeSide)
  match fromPosition with
  | some p => p.2.2
  | none =>
    let fromLocal :=
      localTrades.find? (fun t =>
        t.symbol = agg.symbol ∧ t.side = agg.tradeSide ∧
          t.openTime < agg.lastTime ∧ agg.lastTime - 24 * 3600 * 1000 < t.openTime)
    match fromLocal with
    | some t => t.openLeverage
    | none =>
      if agg.symbol = "BTCUSDT" ∨ agg.symbol = "ETHUSDT" then cfgBTCETHLeverage
      else cfgAltcoinLeverage

/-- Row built for a reconciled external close (lines 4097-4142):
`pnl` is the venue's aggregated realized PnL, `close_price` the weighted
average fill price, `pnl_pct` is `pnl` over the margin
(`open_quantity * open_price / open_leverage`) times 100. -/
def buildSyncRecord (agg : AggTrade) (openPrice openQuantity : ℚ)
    (openLeverage : Int) (openOrderId openTime : Int) (callCount : Int) :
    TradeRow :=
  let duration := agg.lastTime - openTime
  let calculatedPnL := agg.totalRealizedPnl
  let positionValue := openQuantity * openPrice
  let marginUsed := positionValue / (openLeverage : ℚ)
  let pnlPct := if marginUsed > 0 then calculatedPnL / marginUsed * 100 else 0
  { tradeID := agg.symbol ++ "_" ++ agg.tradeSide ++ "_" ++ toString agg.orderId
    symbol := agg.symbol
    side := agg.tradeSide
    openTime := openTime
    openPrice := openPrice
    openQuantity := openQuantity
    openLeverage := openLeverage
    openOrderID := openOrderId
    openReason := "external open"
    openCycleNum := 0
    closeTime := some agg.lastTime
    closePrice := agg.weightedPrice
    closeQuantity := agg.totalQty
    closeOrderID := agg.orderId
    closeReason := "manual close"
    closeCycleNum := callCount
    isForced := false
    forcedReason := ""
    duration := duration
    positionValue := positionValue
    marginUsed := marginUsed
    pnl := calculatedPnL
    pnlPct := pnlPct
    wasStopLoss := false
    success := true
    error := ""
    entryLogic := ""
    exitLogic := ""
    updateSLLogic := ""
    updateTPLogic := ""
    closeLogic := ""
    forcedCloseLogic := "" }

/-- `getActionPriority` from `sortDecisionsByPriority` (auto_trader.go
lines 3662-3673): closes first, then opens, then hold/wait, everything
else (including `update_sl`/`update_tp`) last with priority 999. -/
def getActionPriority (action : String) : Nat :=
  if action = "close_long" ∨ action = "close_short" then 1
  else if action = "open_long" ∨ action = "open_short" then 2
  else if action = "hold" ∨ action = "wait" then 3
  else 999

/-- One pass of the inner loop `for j := i + 1; ...` of
`sortDecisionsByPriority` with pivot `x` at index `i`: compare the current
slot-`i` element with each later element, swapping on strictly greater
priority.  Returns the final slot-`i` element and the rewritten suffix. -/
def sortScan (x : Decision) : List Decision → Decision × List Decision
  | [] => (x, [])
  | y :: ys =>
    if getActionPriority x.action > getActionPriority y.action then
      ((sortScan y ys).1, x :: (sortScan y ys).2)
    else
      ((sortScan x ys).1, y :: (sortScan x ys).2)

/-- The outer loop `for i := 0; i < len-1; ...` of the exchange sort,
with the remaining trip count as explicit fuel: pass `i` of the Go loop
is exactly `sortScan` applied to slot `i` and the suffix, after which the
loop continues on the suffix.  `sortScan` preserves length, so fuel
`l.length` runs the loop to completion. -/
def selSortFuel : Nat → List Decision → List Decision
  | 0, l => l
  | _ + 1, [] => []
  | n + 1, x :: xs => (sortScan x xs).1 :: selSortFuel n (sortScan x xs).2

/-- Embedding of `sortDecisionsByPriority` (lines 3656-3689): the Go
double loop `for i ... for j := i+1 ... if prio(a[i]) > prio(a[j]) swap`
is an exchange sort. -/
def sortDecisionsByPriority (l : List Decision) : List Decision :=
  selSortFuel l.length l

/-- The action types deduplicated by `deduplicateDecisions`. -/
def isDedupAction (a : String) : Bool :=
  a = "update_sl" ∨ a = "update_tp"

/-- The `symbol_action` key used by `deduplicateDecisions`. -/
def dedupKey (d : Decision) : String :=
  d.symbol ++ "_" ++ d.action

/-- First-match lookup in the model of Go's `map[string]int`; insertion is
`cons`, so the most recent insertion for a key shadows older ones. -/
def mapLookup (m : List (String × Nat)) (k : String) : Option Nat :=
  match m with
  | [] => none
  | (k', v) :: rest => if k' = k then some v else mapLookup rest k

/-- First pass of `deduplicateDecisions` (lines 3708-3714): record the
last index of every `symbol_action` key among dedup actions.  `i` is the
running index. -/
def lastIndexMapAux (i : Nat) (l : List Decision) (m : List (String × Nat)) :
    List (String × Nat) :=
  match l with
  | [] => m
  | d :: rest =>
    lastIndexMapAux (i + 1) rest
      (if isDedupAction d.action then (dedupKey d, i) :: m else m)

/-- The completed last-index map of a decision list. -/
def lastIndexMap (l : List Decision) : List (String × Nat) :=
  lastIndexMapAux 0 l []

/-- Second pass of `deduplicateDecisions` (lines 3716-3731): keep a dedup
action only at its key's last index; keep everything else. -/
def dedupeAux (m : List (String × Nat)) (i : Nat) (l : List Decision) :
    List Decision :=
  match l with
  | [] => []
  | d :: rest =>
    if isDedupAction d.action then
      if mapLookup m (dedupKey d) = some i then d :: dedupeAux m (i + 1) rest
      else dedupeAux m (i + 1) rest
    else d :: dedupeAux m (i + 1) rest

/-- Embedding of `deduplicateDecisions` (lines 3691-3734). -/
def deduplicateDecisions (l : List Decision) : List Decision :=
  dedupeAux (lastIndexMap l) 0 l

/-- The cycle pipeline (runCycle steps 7 and 7.5, lines 798-803): sort by
priority, then deduplicate. -/
def decisionPipeline (l : List Decision) : List Decision :=
  deduplicateDecisions (sortDecisionsByPriority l)

/-- Predicate selecting the decisions subject to deduplication with a
given `symbol_action` key (used to state the dedup properties). -/
def hasDedupKey (k : String) (d : Decision) : Bool :=
  isDedupAction d.action && decide (dedupKey d = k)

/-- PnL formula stated by the spec (section 8): quantity times the signed
price move.  This definition follows the spec's words and is compared
against the code's record builders. -/
def specPnl (side : String) (openPrice closePrice quantity : ℚ) : ℚ :=
  if side = "long" then quantity * (closePrice - openPrice)
  else quantity * (openPrice - closePrice)

/-- PnL percentage formula stated by the spec (section 8): pnl over the
margin `open_quantity * open_price / open_leverage`, times 100. -/
def specPnlPct (pnl openPrice quantity : ℚ) (leverage : Int) : ℚ :=
  pnl / (quantity * openPrice / (leverage : ℚ)) * 100

/-! Concrete scenario inputs used by the claim theorems. -/

/-- Healthy account of the end-to-end scenarios: equity 10000, nothing in
use, no open positions. -/
def scenarioCtx : TradingCtx :=
  { account := { totalEquity := 10000, marginUsed := 0,
                 availableBalance := 10000, positionCount := 0 },
    positionSymbols := [] }

/-- The open decision of spec scenario 2: `open_long` at leverage 10,
size 2000, stop 59900, current price 60000. -/
def c3Decision : Decision :=
  { symbol := "BTCUSDT", action := "open_long", leverage := 10,
    positionSizeUSD := 2000, stopLoss := 59900, takeProfit := 0,
    reasoning := "r", exitReasoning := "e" }

/-- The open decision of spec scenario 1: `open_long` at leverage 10,
size 2000, stop 58000, take profit 62000. -/
def c2Decision : Decision :=
  { symbol := "BTCUSDT", action := "open_long", leverage := 10,
    positionSizeUSD := 2000, stopLoss := 58000, takeProfit := 62000,
    reasoning := "r", exitReasoning := "e" }

/-- Inputs for a fully successful `executeOpenLongWithRecord` run of
scenario 1; the exchange rounds 2000/60000 to 0.033. -/
def c2OpenInput : OpenInput :=
  { dec := c2Decision, hasSameSidePosition := false, ctxOk := true,
    ctx := scenarioCtx, marketOk := true, currentPrice := 60000,
    formatQty := fun _ => 33 / 1000, openOk := true }

/-- Update-stop-loss request on a long with stored stop 58000 asking for
57900: an unfavorable move of about 0.17 percent. -/
def c6Input : UpdateSLInput :=
  { decStopLoss := 57900, decTakeProfit := 0, hasPosition := true,
    positionSide := "long", positionQty := 1, marketOk := true,
    currentPrice := 60000, storedStopLoss := 58000, storedTakeProfit := 0,
    cancelResult := .ok, setSLOk := true, setTPOk := true,
    rollbackOk := true, saveOk := true }

/-- First `update_sl` decision for symbol AAAUSDT (stop 100). -/
def c7UpdateA1 : Decision :=
  { symbol := "AAAUSDT", action := "update_sl", leverage := 0,
    positionSizeUSD := 0, stopLoss := 100, takeProfit := 0,
    reasoning := "", exitReasoning := "" }

/-- Second, later `update_sl` decision for the same symbol (stop 200). -/
def c7UpdateA2 : Decision :=
  { symbol := "AAAUSDT", action := "update_sl", leverage := 0,
    positionSizeUSD := 0, stopLoss := 200, takeProfit := 0,
    reasoning := "", exitReasoning := "" }

/-- A close decision for another symbol, listed after the two updates. -/
def c7CloseB : Decision :=
  { symbol := "BBBUSDT", action := "close_long", leverage := 0,
    positionSizeUSD := 0, stopLoss := 0, takeProfit := 0,
    reasoning := "", exitReasoning := "" }

/-- The successful open action recorded in the decision history (C1). -/
def c1OpenAction : DAction :=
  { action := "open_long", symbol := "BTCUSDT", price := 60000,
    quantity := 1 / 30, leverage := 10, orderID := 41, timestamp := 1000,
    success := true }

/-- The close action being recorded (C1). -/
def c1CloseAction : DAction :=
  { action := "close_long", symbol := "BTCUSDT", price := 61000,
    quantity := 1 / 30, leverage := 10, orderID := 42, timestamp := 5000,
    success := true }

/-- The trade row created at open time for the same position: same
`(symbol, open_time)`, still open (`close_time` NULL). -/
def c1ExistingRow : TradeRow :=
  { tradeID := "BTCUSDT_long_1000", symbol := "BTCUSDT", side := "long",
    openTime := 1000, openPrice := 60000, openQuantity := 1 / 30,
    openLeverage := 10, openOrderID := 41, openReason := "r",
    openCycleNum := 7, closeTime := none, closePrice := 0,
    closeQuantity := 0, closeOrderID := 0, closeReason := "",
    closeCycleNum := 0, isForced := false, forcedReason := "",
    duration := 0, positionValue := 2000, marginUsed := 200, pnl := 0,
    pnlPct := 0, wasStopLoss := false, success := false, error := "",
    entryLogic := "el", exitLogic := "xl", updateSLLogic := "",
    updateTPLogic := "", closeLogic := "", forcedCloseLogic := "" }

/-- The AI close decision handled by the recorder (C1). -/
def c1CloseDecision : Decision :=
  { symbol := "BTCUSDT", action := "close_long", leverage := 10,
    positionSizeUSD := 0, stopLoss := 0, takeProfit := 0,
    reasoning := "done", exitReasoning := "" }

/-- Decision history containing the matching open (C1). -/
def c1Records : List DecRecord :=
  [{ cycleNumber := 7, decisions := [c1OpenAction] }]

/-- Venue fill: the external open, order 100, BUY 3 at 1950, zero
realized PnL (C8, spec scenario 6). -/
def c8OpenFill : Fill :=
  { symbol := "ETHUSDT", orderId := 100, side := "BUY", price := 1950,
    qty := 3, realizedPnl := 0, time := 1699990000000 }

/-- Venue fill: first close fill of order 111, SELL 1 at 2000. -/
def c8CloseFill1 : Fill :=
  { symbol := "ETHUSDT", orderId := 111, side := "SELL", price := 2000,
    qty := 1, realizedPnl := 10, time := 1700000000000 }

/-- Venue fill: second close fill of order 111, SELL 2 at 2010; the two
close fills realize 12.34 in total. -/
def c8CloseFill2 : Fill :=
  { symbol := "ETHUSDT", orderId := 111, side := "SELL", price := 2010,
    qty := 2, realizedPnl := 234 / 100, time := 1700000005000 }

/-- The venue history of spec scenario 6. -/
def c8Fills : List Fill := [c8CloseFill1, c8CloseFill2, c8OpenFill]

/-- The aggregate the reconciler builds for order 111: quantity 3,
weighted price 6020/3, realized PnL 12.34. -/
def c8Agg : AggTrade :=
  { orderId := 111, symbol := "ETHUSDT", side := "SELL", tradeSide := "long",
    totalQty := 3, weightedPrice := 6020 / 3, firstTime := 1700000000000,
    lastTime := 1700000005000, totalRealizedPnl := 617 / 50 }

/-- The row the reconciler inserts for scenario 6 (open data recovered
from the open fill, leverage 10 resolved from configuration). -/
def c8Record : TradeRow :=
  buildSyncRecord c8Agg 1950 3 10 100 (decodeTimeMs c8OpenFill.time) 9

/-! Claim theorems. -/

/-- C1: on the close path the recorder does NOT query
`get_open_trade_by_time_and_side` and does NOT finalize the existing row
in place.  With the open row already in the table (created for the same
`(symbol, open_time)`), `recordTradeHistory` reconstructs the open from
the decision records and attempts a fresh `LogTrade` INSERT, which
violates the `UNIQUE(symbol, open_time)` constraint and is merely logged:
the table is unchanged and the row is never finalized (`close_time`
still NULL) — even though `GetOpenTradeByTime` would have found the row.
This contradicts the claim and the repository documentation
(TRADE_LIFECYCLE_REVIEW.md section 4, part of the repo), which state the
close path queries by time and then updates in place. -/
theorem c1_close_recorder_inserts_not_updates :
    (recordTradeHistory "long" c1CloseDecision c1CloseAction false ""
        c1Records 9 [c1ExistingRow]).1 = [c1ExistingRow] ∧
    (recordTradeHistory "long" c1CloseDecision c1CloseAction false ""
        c1Records 9 [c1ExistingRow]).2 = .insertFailedDuplicate ∧
    c1ExistingRow.closeTime = none ∧
    getOpenTradeByTime [c1ExistingRow] "BTCUSDT" 1000 = some c1ExistingRow :=
  ⟨rfl, rfl, rfl, rfl⟩

/-- C8: refuted for the reconciler — in spec scenario 6 the inserted row
carries the venue's aggregated realized PnL (12.34), while the claimed
formula `open_quantity * (close_price - open_price)` gives
`3 * (6020/3 - 1950) = 170`: the stored pnl is NOT recomputable from
`(side, open_price, close_price, open_quantity)`. -/
theorem c8_counterexample :
    aggregateCloseFills c8Fills [] = [c8Agg] ∧
    findBestOpenFill c8Fills c8Agg = some c8OpenFill ∧
    c8Record.closeTime = some 1700000005000 ∧
    c8Record.pnl = 617 / 50 ∧
    specPnl c8Record.side c8Record.openPrice c8Record.closePrice
      c8Record.openQuantity = 170 ∧
    c8Record.pnl ≠ specPnl c8Record.side c8Record.openPrice c8Record.closePrice
      c8Record.openQuantity := by
  refine ⟨?_, ?_, ?_, ?_⟩
  · simp only [aggregateCloseFills, c8Fills, c8CloseFill1, c8CloseFill2,
      c8OpenFill, upsertAgg, mergeFill, decodeTimeMs, List.foldl_cons,
      List.foldl_nil, List.any_cons, List.any_nil, List.contains,
      List.map_cons, List.map_nil, List.elem_nil, Bool.or_false,
      List.nil_append, List.cons_append, String.reduceEq, if_true, if_false,
      ite_true, ite_false]
    norm_num [c8Agg]
  · simp only [findBestOpenFill, c8Fills, c8CloseFill1, c8CloseFill2,
      c8OpenFill, c8Agg, decodeTimeMs, List.foldl_cons, List.foldl_nil,
      String.reduceEq]
    norm_num
  · norm_num [c8Record, buildSyncRecord, c8Agg, c8OpenFill, decodeTimeMs]
  · constructor
    · norm_num [c8Record, buildSyncRecord, c8Agg, c8OpenFill, decodeTimeMs]
    constructor
    · norm_num [specPnl, c8Record, buildSyncRecord, c8Agg, c8OpenFill,
        decodeTimeMs]
    · norm_num [specPnl, c8Record, buildSyncRecord, c8Agg, c8OpenFill,
        decodeTimeMs]

/-- C8 (amended): rows built by `buildTradeRecord` (all AI/watchdog close
paths) carry exactly the spec formulas — pnl is the side-mirrored price
move times quantity and pnl_pct is pnl over margin times 100 — whereas a
reconciler row (`buildSyncRecord`) stores the venue's aggregated realized
PnL as pnl; only its pnl_pct is recomputable, as pnl over
`open_quantity * open_price / open_leverage` times 100. -/
theorem c8_amended :
    (∀ (symbol side : String) (o c : DAction) (ocn ccn : Int) (f : Bool)
        (fr orr cr : String),
      0 < (buildTradeRecord symbol side o c ocn ccn f fr orr cr).marginUsed →
      (buildTradeRecord symbol side o c ocn ccn f fr orr cr).pnl
          = specPnl side o.price c.price o.quantity ∧
      (buildTradeRecord symbol side o c ocn ccn f fr orr cr).pnlPct
          = specPnlPct (specPnl side o.price c.price o.quantity)
              o.price o.quantity o.leverage) ∧
    (∀ (agg : AggTrade) (op oq : ℚ) (lev oid ot cc : Int),
      0 < oq * op / (lev : ℚ) →
      (buildSyncRecord agg op oq lev oid ot cc).pnl = agg.totalRealizedPnl ∧
      (buildSyncRecord agg op oq lev oid ot cc).pnlPct
          = specPnlPct agg.totalRealizedPnl op oq lev) := by
  constructor
  · intro symbol side o c ocn ccn f fr orr cr hm
    simp only [buildTradeRecord] at hm ⊢
    constructor
    · simp [specPnl]
    · rw [if_pos hm]
      simp [specPnl, specPnlPct]
  · intro agg op oq lev oid ot cc hm
    simp only [buildSyncRecord] at hm ⊢
    constructor
    · trivial
    · rw [if_pos hm]
      simp [specPnlPct]

/-- C8 (witness): the amended theorem at concrete inputs — the close-path
record of the C1 scenario matches the spec pnl formula, and the
scenario-6 reconciler row stores the venue PnL. -/
theorem c8_witness :
    (buildTradeRecord "BTCUSDT" "long" c1OpenAction c1CloseAction 7 9 false
        "" "r" "done").pnl
      = specPnl "long" c1OpenAction.price c1CloseAction.price
          c1OpenAction.quantity ∧
    (buildSyncRecord c8Agg 1950 3 10 100 1699990000000000 9).pnl
      = c8Agg.totalRealizedPnl :=
  ⟨(c8_amended.1 "BTCUSDT" "long" c1OpenAction c1CloseAction 7 9 false ""
      "r" "done" (by norm_num [buildTradeRecord, c1OpenAction])).1,
   (c8_amended.2 c8Agg 1950 3 10 100 1699990000000000 9 (by norm_num)).1⟩

/-- C2: an accepted `open_long` of 2000 USDT at price 60000 completes
successfully, records the first-seen time, saves stop/take and entry/exit
logic to the position-logic store, and submits the lot-rounded quantity —
but it performs NO trade-store operation: `executeOpenLongWithRecord`
never calls `CreateTrade` (no call site exists anywhere in the trader),
so no trade row with the open fields is created, contradicting the claim
and the repository documentation (TRADE_LIFECYCLE_REVIEW.md section 1). -/
theorem c2_open_path_creates_no_trade_row :
    executeOpenLong c2OpenInput =
      (.success,
        { savedFirstSeen := true, savedStopTakeToLogic := true,
          savedEntryLogic := true, savedExitLogic := true,
          submittedQuantity := 33 / 1000, tradeStoreOps := [] }) := by
  norm_num [executeOpenLong, c2OpenInput, c2Decision, scenarioCtx,
    checkMarginAndBalanceSafety, isSingleSymbol, MaxMarginUsagePct,
    MaxMarginUsagePctSingleSymbol, MinReserveBalancePct, MinSafeDistancePct,
    MaintenanceMarginRate]
  decide

/-- C4: the boundary examples of the claim are reversed.  With
`daily_start_equity = 10000` and a 5 percent threshold, equity 9500 means
a daily loss of exactly 5 percent, which does NOT satisfy the strict
comparison `dailyLossPct < -maxDailyLoss` — no halt; equity 9499.99
(loss 5.0001 percent) DOES trigger the daily-loss halt. -/
theorem c4_counterexample :
    checkAccountRiskHalt { maxDrawdown := 0, maxDailyLoss := 5 }
        (updateRiskAtCheck
          { peakEquity := 10000, dailyPnL := 0, dailyStartEquity := 10000 }
          9500 true) 9500 = none ∧
    checkAccountRiskHalt { maxDrawdown := 0, maxDailyLoss := 5 }
        (updateRiskAtCheck
          { peakEquity := 10000, dailyPnL := 0, dailyStartEquity := 10000 }
          (949999 / 100) true) (949999 / 100) = some .dailyLoss := by
  constructor <;> norm_num [checkAccountRiskHalt, updateRiskAtCheck]

/-- C4 (amended): with the drawdown check disabled, a positive daily-loss
threshold and a positive daily start equity, the daily-loss halt fires
exactly when `(daily_pnl / daily_start_equity) * 100 < -max_daily_loss_pct`
— strictly, so equity 9499.99 halts while equity 9500 (exactly -5
percent) does not. -/
theorem c4_amended (mdl ds peak dpnl equity : ℚ)
    (hmdl : 0 < mdl) (hds : 0 < ds) :
    checkAccountRiskHalt { maxDrawdown := 0, maxDailyLoss := mdl }
        (updateRiskAtCheck
          { peakEquity := peak, dailyPnL := dpnl, dailyStartEquity := ds }
          equity true) equity
      = some .dailyLoss ↔ (equity - ds) / ds * 100 < -mdl := by
  simp only [checkAccountRiskHalt, updateRiskAtCheck]
  simp only [gt_iff_lt, lt_irrefl, false_and, if_false, if_true]
  split_ifs with h2
  · exact iff_of_true rfl h2.2.2
  · exact iff_of_false (by simp) fun hlt => h2 ⟨hmdl, hds, hlt⟩

/-- C4 (witness): the amended theorem applied at daily start equity 10000,
threshold 5 percent and equity 9499.99 — the halt fires. -/
theorem c4_witness :
    checkAccountRiskHalt { maxDrawdown := 0, maxDailyLoss := 5 }
        (updateRiskAtCheck
          { peakEquity := 10000, dailyPnL := 0, dailyStartEquity := 10000 }
          (949999 / 100) true) (949999 / 100) = some .dailyLoss :=
  (c4_amended 5 10000 10000 0 (949999 / 100) (by norm_num) (by norm_num)).mpr
    (by norm_num)

/-- C3: refuted as stated — for an `open_long` at leverage 10 the
estimated liquidation distance is `(1/10 + 0.01) * 100 = 11` percent,
which is not below the 3 percent minimum, and on a healthy account the
whole safety check ACCEPTS the scenario-2 decision (leverage 10, price
60000, stop 59900): `checkMarginAndBalanceSafety` returns no error. -/
theorem c3_counterexample :
    checkMarginAndBalanceSafety scenarioCtx c3Decision 60000 = none ∧
    (1 / (10 : ℚ) + MaintenanceMarginRate) * 100 = 11 ∧
    ¬ ((11 : ℚ) < MinSafeDistancePct) := by
  refine ⟨?_, ?_, ?_⟩
  · norm_num [checkMarginAndBalanceSafety, scenarioCtx, c3Decision,
      isSingleSymbol, MaxMarginUsagePct, MaxMarginUsagePctSingleSymbol,
      MinReserveBalancePct, MinSafeDistancePct, MaintenanceMarginRate]
  · norm_num [MaintenanceMarginRate]
  · norm_num [MinSafeDistancePct]

/-- C3 (amended): the scenario-2 open is accepted, and for any leverage
`L ≥ 1` and price `P > 0`, the liquidation-distance rejection of
`checkMarginAndBalanceSafety` fires exactly when
`(1/L + 0.01) * 100 < 3` — i.e. only for leverage above 50, never at
leverage 10. -/
theorem c3_amended :
    checkMarginAndBalanceSafety scenarioCtx c3Decision 60000 = none ∧
    ∀ L : Int, 1 ≤ L → ∀ P : ℚ, 0 < P →
      (checkMarginAndBalanceSafety scenarioCtx
          { c3Decision with leverage := L } P = some .liquidationTooClose ↔
        (1 / (L : ℚ) + 1 / 100) * 100 < 3) := by
  constructor
  · norm_num [checkMarginAndBalanceSafety, scenarioCtx, c3Decision,
      isSingleSymbol, MaxMarginUsagePct, MaxMarginUsagePctSingleSymbol,
      MinReserveBalancePct, MinSafeDistancePct, MaintenanceMarginRate]
  intro L hL P hP
  have hl : (1 : ℚ) ≤ (L : ℚ) := by exact_mod_cast hL
  have hx : 2000 / (L : ℚ) ≤ 2000 := div_le_self (by norm_num) hl
  have hx0 : (0 : ℚ) ≤ 2000 / (L : ℚ) := by positivity
  simp only [checkMarginAndBalanceSafety, scenarioCtx, c3Decision,
    isSingleSymbol, MaxMarginUsagePct, MaxMarginUsagePctSingleSymbol,
    MinReserveBalancePct, MinSafeDistancePct, MaintenanceMarginRate]
  norm_num
  rw [if_neg (not_le.mpr hP)]
  rw [if_neg (by linarith : ¬ (80 : ℚ) < 2000 / (L : ℚ) / 10000 * 100)]
  rw [if_neg (by linarith : ¬ (10000 : ℚ) - 2000 / (L : ℚ) < 500)]
  have hdist : (P - P * (1 - ((L : ℚ)⁻¹ + 1 / 100))) / P * 100
      = ((L : ℚ)⁻¹ + 1 / 100) * 100 := by
    field_simp
    ring
  rw [hdist]
  by_cases hd : ((L : ℚ)⁻¹ + 1 / 100) * 100 < 3
  · rw [if_pos hd]
    exact iff_of_true rfl hd
  · rw [if_neg hd]
    refine iff_of_false ?_ hd
    split_ifs <;> simp

/-- C3 (witness): the amended theorem applied at leverage 100 and price
60000 — there the distance is 2 percent and the check does reject with
the liquidation-distance error. -/
theorem c3_witness :
    checkMarginAndBalanceSafety scenarioCtx
        { c3Decision with leverage := 100 } 60000
      = some .liquidationTooClose :=
  (c3_amended.2 100 (by norm_num) 60000 (by norm_num)).mpr (by norm_num)

/-- C5: when `buildTradingContext` fails in a cycle whose daily reset is
due, `runCycle` resets `peakEquity` to `initialBalance` (auto_trader.go
line 339), so peak equity is NOT monotonically non-decreasing across
cycles: starting from peak 20000 with initial balance 10000, the failed
cycle drops the peak to 10000.  This contradicts the code's own comment
(line 369: the peak must never be reset and is kept for the whole trading
period) and the claim. -/
theorem c5_ctx_failure_reset_decreases_peak :
    (runCycleResetOnCtxFailure
        { peakEquity := 20000, dailyPnL := 0, dailyStartEquity := 15000 }
        10000 true).peakEquity = 10000 ∧
    ((10000 : ℚ) < 20000) ∧
    (runCycleDailyReset
        { peakEquity := 20000, dailyPnL := 0, dailyStartEquity := 15000 }
        10000 true).peakEquity = 20000 := by
  refine ⟨rfl, by norm_num, by norm_num [runCycleDailyReset]⟩

/-- C10: a configured `position_stop_loss_pct` of 0 behaves exactly like
the default 10 percent (so the watchdog stop-loss stays armed), a losing
long at 18.33 percent leveraged loss is force-closed under the zero
configuration, and a `position_take_profit_pct` of at most 0 makes the
forced take-profit branch unreachable. -/
theorem c10_zero_stop_loss_uses_default (cfgSL cfgTP : ℚ) (side : String)
    (e m lev : ℚ) :
    (checkPositionStopLoss 0 cfgTP side e m lev
        = checkPositionStopLoss 10 cfgTP side e m lev) ∧
    (cfgTP ≤ 0 →
      checkPositionStopLoss cfgSL cfgTP side e m lev ≠ .closeTakeProfit) ∧
    (checkPositionStopLoss 0 cfgTP "long" 60000 58900 10 = .closeStopLoss) := by
  refine ⟨by norm_num [checkPositionStopLoss], ?_, ?_⟩
  · intro hTP
    simp only [checkPositionStopLoss]
    split_ifs <;> try simp
    all_goals exact absurd ‹0 < cfgTP ∧ _›.1 (not_lt.mpr hTP)
  · norm_num [checkPositionStopLoss]

/-- C10 (witness): the theorem applied at concrete inputs — a zero
stop-loss configuration closes the losing long of spec scenario 4, and a
disabled take-profit configuration never produces a take-profit close. -/
theorem c10_witness :
    checkPositionStopLoss 0 0 "long" 60000 58900 10 = .closeStopLoss ∧
    checkPositionStopLoss 5 (-1) "long" 60000 61000 10 ≠ .closeTakeProfit :=
  ⟨(c10_zero_stop_loss_uses_default 0 0 "long" 60000 58900 10).2.2,
   (c10_zero_stop_loss_uses_default 5 (-1) "long" 60000 61000 10).2.1
     (by norm_num)⟩

/-- C6: refuted in its rejection clause — a new stop 57900 on a long with
stored stop 58000 moves the stop in the UNFAVORABLE direction, yet it is
not rejected with an error: the relative change (about 0.17 percent) is
below the 0.5 percent no-op threshold, so the request is skipped
(`SKIPPED:` marker, nil error) and the stored stop stays 58000. -/
theorem c6_counterexample :
    executeUpdateStopLoss c6Input = (.skipped, 58000) ∧
    c6Input.decStopLoss < c6Input.storedStopLoss := by
  constructor
  · unfold executeUpdateStopLoss c6Input
    norm_num
  · norm_num [c6Input]

/-- Case analysis of `executeUpdateStopLoss`: the stored stop is either
left unchanged, or replaced by the requested stop after the trailing
checks passed. -/
theorem stopLossPersisted (inp : UpdateSLInput) :
    (executeUpdateStopLoss inp).2 = inp.storedStopLoss ∨
    ((executeUpdateStopLoss inp).2 = inp.decStopLoss ∧
      ¬(inp.storedStopLoss > 0 ∧ inp.positionSide = "long" ∧
        inp.decStopLoss < inp.storedStopLoss) ∧
      ¬(inp.storedStopLoss > 0 ∧ inp.positionSide ≠ "long" ∧
        inp.decStopLoss > inp.storedStopLoss)) := by
  unfold executeUpdateStopLoss
  by_cases h1 : inp.decStopLoss ≤ 0
  · rw [if_pos h1]; exact Or.inl rfl
  rw [if_neg h1]
  by_cases h2 : ¬inp.hasPosition = true
  · rw [if_pos h2]; exact Or.inl rfl
  rw [if_neg h2]
  by_cases h3 : inp.storedStopLoss > 0 ∧
      (if (inp.decStopLoss - inp.storedStopLoss) / inp.storedStopLoss < 0
        then -((inp.decStopLoss - inp.storedStopLoss) / inp.storedStopLoss)
        else (inp.decStopLoss - inp.storedStopLoss) / inp.storedStopLoss)
        < 5 / 1000
  · rw [if_pos h3]; exact Or.inl rfl
  rw [if_neg h3]
  by_cases h4 : inp.positionQty ≤ 0
  · rw [if_pos h4]; exact Or.inl rfl
  rw [if_neg h4]
  by_cases h5 : ¬inp.marketOk = true
  · rw [if_pos h5]; exact Or.inl rfl
  rw [if_neg h5]
  by_cases h6 : inp.currentPrice ≤ 0
  · rw [if_pos h6]; exact Or.inl rfl
  rw [if_neg h6]
  by_cases h7 : inp.positionSide = "long" ∧ inp.decStopLoss ≥ inp.currentPrice
  · rw [if_pos h7]; exact Or.inl rfl
  rw [if_neg h7]
  by_cases h8 : inp.positionSide ≠ "long" ∧ inp.decStopLoss ≤ inp.currentPrice
  · rw [if_pos h8]; exact Or.inl rfl
  rw [if_neg h8]
  by_cases h9 : inp.storedStopLoss > 0 ∧ inp.positionSide = "long" ∧
      inp.decStopLoss < inp.storedStopLoss
  · rw [if_pos h9]; exact Or.inl rfl
  rw [if_neg h9]
  by_cases h10 : inp.storedStopLoss > 0 ∧ inp.positionSide ≠ "long" ∧
      inp.decStopLoss > inp.storedStopLoss
  · rw [if_pos h10]; exact Or.inl rfl
  rw [if_neg h10]
  by_cases h11 : inp.decTakeProfit > 0 ∧ inp.positionSide = "long" ∧
      inp.decStopLoss ≥ inp.decTakeProfit
  · rw [if_pos h11]; exact Or.inl rfl
  rw [if_neg h11]
  by_cases h12 : inp.decTakeProfit > 0 ∧ inp.positionSide = "long" ∧
      (inp.decStopLoss ≥ inp.currentPrice ∨ inp.decTakeProfit ≤ inp.currentPrice)
  · rw [if_pos h12]; exact Or.inl rfl
  rw [if_neg h12]
  by_cases h13 : inp.decTakeProfit > 0 ∧ inp.positionSide ≠ "long" ∧
      inp.decStopLoss ≤ inp.decTakeProfit
  · rw [if_pos h13]; exact Or.inl rfl
  rw [if_neg h13]
  by_cases h14 : inp.decTakeProfit > 0 ∧ inp.positionSide ≠ "long" ∧
      (inp.decTakeProfit ≥ inp.currentPrice ∨ inp.decStopLoss ≤ inp.currentPrice)
  · rw [if_pos h14]; exact Or.inl rfl
  rw [if_neg h14]
  by_cases h15 : inp.cancelResult = CancelResult.errOther
  · rw [if_pos h15]; exact Or.inl rfl
  rw [if_neg h15]
  by_cases h16 : ¬inp.setSLOk = true
  · rw [if_pos h16]
    refine Or.inl ?_
    split_ifs <;> rfl
  rw [if_neg h16]
  by_cases h17 : (if inp.decTakeProfit ≤ 0 ∧ inp.storedTakeProfit > 0
        then inp.storedTakeProfit else inp.decTakeProfit) > 0 ∧
      ¬inp.setTPOk = true
  · rw [if_pos h17]
    refine Or.inl ?_
    split_ifs <;> rfl
  rw [if_neg h17]
  by_cases h18 : inp.saveOk = true
  · rw [if_pos h18]; exact Or.inr ⟨rfl, h9, h10⟩
  · rw [if_neg h18]; exact Or.inl rfl

/-- C6 (amended): for every `update_sl` run against a positive stored stop,
the stop persisted afterwards never moves in the unfavorable direction
(at least the stored stop for a long, at most it for a short, across
executed, skipped and failed runs); and an unfavorable move of at least
0.5 percent (past the no-op threshold) on a valid request is rejected
with the trailing-stop error.  Unfavorable moves below 0.5 percent are
skipped as no-ops, not rejected. -/
theorem c6_amended (inp : UpdateSLInput) (hstored : 0 < inp.storedStopLoss) :
    (inp.positionSide = "long" →
      inp.storedStopLoss ≤ (executeUpdateStopLoss inp).2) ∧
    (inp.positionSide ≠ "long" →
      (executeUpdateStopLoss inp).2 ≤ inp.storedStopLoss) ∧
    (inp.positionSide = "long" → inp.decStopLoss < inp.storedStopLoss →
      5 / 1000 ≤ (inp.storedStopLoss - inp.decStopLoss) / inp.storedStopLoss →
      0 < inp.decStopLoss → inp.hasPosition = true → 0 < inp.positionQty →
      inp.marketOk = true → 0 < inp.currentPrice →
      inp.decStopLoss < inp.currentPrice →
      (executeUpdateStopLoss inp).1 = .errTrailing) := by
  refine ⟨?_, ?_, ?_⟩
  · intro hside
    rcases stopLossPersisted inp with h | ⟨hv, hT1, _⟩
    · rw [h]
    · rw [hv]
      by_contra hlt
      exact hT1 ⟨hstored, hside, not_le.mp hlt⟩
  · intro hside
    rcases stopLossPersisted inp with h | ⟨hv, _, hT2⟩
    · rw [h]
    · rw [hv]
      by_contra hlt
      exact hT2 ⟨hstored, hside, not_le.mp hlt⟩
  · intro hside hlt hdiff hdec hpos hqty hmkt hprice hdp
    have hd0 : (inp.decStopLoss - inp.storedStopLoss) / inp.storedStopLoss < 0 :=
      div_neg_of_neg_of_pos (by linarith) hstored
    unfold executeUpdateStopLoss
    rw [if_neg (not_le.mpr hdec)]
    rw [if_neg (not_not_intro hpos)]
    have hskip : ¬(inp.storedStopLoss > 0 ∧
        (if (inp.decStopLoss - inp.storedStopLoss) / inp.storedStopLoss < 0
          then -((inp.decStopLoss - inp.storedStopLoss) / inp.storedStopLoss)
          else (inp.decStopLoss - inp.storedStopLoss) / inp.storedStopLoss)
          < 5 / 1000) := by
      rintro ⟨_, habs⟩
      rw [if_pos hd0] at habs
      have hbal : -((inp.decStopLoss - inp.storedStopLoss) / inp.storedStopLoss)
          = (inp.storedStopLoss - inp.decStopLoss) / inp.storedStopLoss := by
        ring
      rw [hbal] at habs
      exact absurd habs (not_lt.mpr hdiff)
    rw [if_neg hskip]
    rw [if_neg (not_le.mpr hqty)]
    rw [if_neg (not_not_intro hmkt)]
    rw [if_neg (not_le.mpr hprice)]
    rw [if_neg (show ¬(inp.positionSide = "long" ∧
        inp.decStopLoss ≥ inp.currentPrice)
      from fun hc => absurd hc.2 (not_le.mpr hdp))]
    rw [if_neg (show ¬(inp.positionSide ≠ "long" ∧
        inp.decStopLoss ≤ inp.currentPrice)
      from fun hc => hc.1 hside)]
    rw [if_pos ⟨hstored, hside, hlt⟩]

/-- C6 (witness): the amended theorem at spec scenario 3 — the favorable
move 58000 to 58500 persists a stop of at least 58000, and the
unfavorable move to 57500 (0.86 percent) is rejected as a trailing
violation. -/
theorem c6_witness :
    (58000 : ℚ) ≤ (executeUpdateStopLoss
      { decStopLoss := 58500, decTakeProfit := 0, hasPosition := true,
        positionSide := "long", positionQty := 1, marketOk := true,
        currentPrice := 60100, storedStopLoss := 58000, storedTakeProfit := 0,
        cancelResult := .ok, setSLOk := true, setTPOk := true,
        rollbackOk := true, saveOk := true }).2 ∧
    (executeUpdateStopLoss
      { decStopLoss := 57500, decTakeProfit := 0, hasPosition := true,
        positionSide := "long", positionQty := 1, marketOk := true,
        currentPrice := 60100, storedStopLoss := 58000, storedTakeProfit := 0,
        cancelResult := .ok, setSLOk := true, setTPOk := true,
        rollbackOk := true, saveOk := true }).1 = .errTrailing :=
  ⟨(c6_amended _ (by norm_num)).1 rfl,
   (c6_amended _ (by norm_num)).2.2 rfl (by norm_num) (by norm_num) (by norm_num)
     rfl (by norm_num) rfl (by norm_num) (by norm_num)⟩

theorem sortScan_length (x : Decision) (l : List Decision) :
    ((sortScan x l).2).length = l.length := by
  induction l generalizing x with
  | nil => rfl
  | cons y ys ih =>
    simp only [sortScan]
    split_ifs <;> simp [ih]

theorem sortScan_perm (x : Decision) (l : List Decision) :
    List.Perm (x :: l) ((sortScan x l).1 :: (sortScan x l).2) := by
  induction l generalizing x with
  | nil => exact List.Perm.refl _
  | cons y ys ih =>
    simp only [sortScan]
    split_ifs with h
    · exact ((ih y).cons x).trans (List.Perm.swap _ _ _)
    · exact (List.Perm.swap _ _ _).trans (((ih x).cons y).trans (List.Perm.swap _ _ _))

theorem sortScan_min (x : Decision) (l : List Decision) :
    getActionPriority (sortScan x l).1.action ≤ getActionPriority x.action ∧
    ∀ y ∈ (sortScan x l).2,
      getActionPriority (sortScan x l).1.action ≤ getActionPriority y.action := by
  induction l generalizing x with
  | nil => exact ⟨le_refl _, by simp [sortScan]⟩
  | cons y ys ih =>
    simp only [sortScan]
    split_ifs with h
    · refine ⟨le_trans (ih y).1 (le_of_lt h), ?_⟩
      intro z hz
      rcases List.mem_cons.mp hz with rfl | hz'
      · exact le_trans (ih y).1 (le_of_lt h)
      · exact (ih y).2 z hz'
    · refine ⟨(ih x).1, ?_⟩
      intro z hz
      rcases List.mem_cons.mp hz with rfl | hz'
      · exact le_trans (ih x).1 (not_lt.mp h)
      · exact (ih x).2 z hz'

theorem selSortFuel_perm :
    ∀ (n : Nat) (l : List Decision), l.length ≤ n →
      List.Perm (selSortFuel n l) l := by
  intro n
  induction n with
  | zero => intro l _; exact List.Perm.refl _
  | succ n ih =>
    intro l hl
    match l with
    | [] => exact List.Perm.refl _
    | x :: xs =>
      have hlen : ((sortScan x xs).2).length ≤ n := by
        rw [sortScan_length]
        exact Nat.lt_succ_iff.mp (Nat.lt_of_lt_of_le (Nat.lt_succ_self _) hl)
      exact ((ih _ hlen).cons _).trans (sortScan_perm x xs).symm

theorem selSortFuel_sorted :
    ∀ (n : Nat) (l : List Decision), l.length ≤ n →
      (selSortFuel n l).Pairwise
        (fun a b => getActionPriority a.action ≤ getActionPriority b.action) := by
  intro n
  induction n with
  | zero =>
    intro l hl
    have : l = [] := List.length_eq_zero.mp (Nat.le_zero.mp hl)
    subst this
    exact List.Pairwise.nil
  | succ n ih =>
    intro l hl
    match l with
    | [] => exact List.Pairwise.nil
    | x :: xs =>
      have hlen : ((sortScan x xs).2).length ≤ n := by
        rw [sortScan_length]
        exact Nat.lt_succ_iff.mp (Nat.lt_of_lt_of_le (Nat.lt_succ_self _) hl)
      refine List.Pairwise.cons ?_ (ih _ hlen)
      intro b hb
      have hbmem : b ∈ (sortScan x xs).2 :=
        (selSortFuel_perm n _ hlen).mem_iff.mp hb
      exact (sortScan_min x xs).2 b hbmem

theorem sortDecisions_perm (l : List Decision) :
    List.Perm (sortDecisionsByPriority l) l :=
  selSortFuel_perm l.length l le_rfl

theorem sortDecisions_sorted (l : List Decision) :
    (sortDecisionsByPriority l).Pairwise
      (fun a b => getActionPriority a.action ≤ getActionPriority b.action) :=
  selSortFuel_sorted l.length l le_rfl

theorem dedupeAux_sublist (M : List (String × Nat)) :
    ∀ (l : List Decision) (i : Nat), List.Sublist (dedupeAux M i l) l := by
  intro l
  induction l with
  | nil => intro i; exact List.Sublist.refl _
  | cons d rest ih =>
    intro i
    simp only [dedupeAux]
    split_ifs
    · exact List.Sublist.cons₂ d (ih (i + 1))
    · exact List.Sublist.cons d (ih (i + 1))
    · exact List.Sublist.cons₂ d (ih (i + 1))

theorem dedupeAux_filter_nondedup (M : List (String × Nat)) :
    ∀ (l : List Decision) (i : Nat),
      (dedupeAux M i l).filter (fun d => !isDedupAction d.action)
        = l.filter (fun d => !isDedupAction d.action) := by
  intro l
  induction l with
  | nil => intro i; rfl
  | cons d rest ih =>
    intro i
    simp only [dedupeAux]
    split_ifs with hd hk
    · simp [List.filter_cons, hd, ih]
    · simp [List.filter_cons, hd, ih]
    · simp only [Bool.not_eq_true] at hd
      simp [List.filter_cons, hd, ih]

theorem hasDedupKey_true {k : String} {d : Decision} :
    hasDedupKey k d = true ↔ isDedupAction d.action = true ∧ dedupKey d = k := by
  simp [hasDedupKey]

theorem dedupeAux_filter_key_congr (M₁ M₂ : List (String × Nat)) (k : String)
    (hM : mapLookup M₁ k = mapLookup M₂ k) :
    ∀ (l : List Decision) (i : Nat),
      (dedupeAux M₁ i l).filter (hasDedupKey k)
        = (dedupeAux M₂ i l).filter (hasDedupKey k) := by
  intro l
  induction l with
  | nil => intro i; rfl
  | cons d rest ih =>
    intro i
    by_cases hkey : hasDedupKey k d = true
    · obtain ⟨hd, hk⟩ := hasDedupKey_true.mp hkey
      simp only [dedupeAux, hd, if_true, hk, hM]
      split_ifs with h
      · simp [List.filter_cons, hkey, ih]
      · exact ih (i + 1)
    · have hkf : hasDedupKey k d = false := by simpa using hkey
      by_cases hd : isDedupAction d.action = true
      · simp only [dedupeAux, hd, if_true]
        by_cases h1 : mapLookup M₁ (dedupKey d) = some i
        · rw [if_pos h1]
          by_cases h2 : mapLookup M₂ (dedupKey d) = some i
          · rw [if_pos h2]
            simp [List.filter_cons, hkf, ih]
          · rw [if_neg h2]
            rw [List.filter_cons]
            simp only [hkf, if_neg]
            · exact ih (i + 1)
        · rw [if_neg h1]
          by_cases h2 : mapLookup M₂ (dedupKey d) = some i
          · rw [if_pos h2]
            rw [List.filter_cons]
            simp only [hkf]
            simp only [Bool.false_eq_true, if_false]
            exact ih (i + 1)
          · rw [if_neg h2]
            exact ih (i + 1)
      · have hdf : ¬ isDedupAction d.action = true := hd
        simp only [dedupeAux, if_neg hdf]
        simp [List.filter_cons, hkf, ih]

theorem dedupeAux_filter_key_out (M : List (String × Nat)) (k : String) (j : Nat)
    (hM : mapLookup M k = some j) :
    ∀ (l : List Decision) (i : Nat), (j < i ∨ i + l.length ≤ j) →
      (dedupeAux M i l).filter (hasDedupKey k) = [] := by
  intro l
  induction l with
  | nil => intro i _; rfl
  | cons d rest ih =>
    intro i hout
    have hnext : j < i + 1 ∨ (i + 1) + rest.length ≤ j := by
      rcases hout with h | h
      · exact Or.inl (Nat.lt_succ_of_lt h)
      · right
        simp only [List.length_cons] at h
        omega
    by_cases hkey : hasDedupKey k d = true
    · obtain ⟨hd, hk⟩ := hasDedupKey_true.mp hkey
      simp only [dedupeAux, hd, if_true, hk, hM]
      have hne : ¬ (some j = some (i : Nat)) := by
        rcases hout with h | h
        · intro hc; cases hc; omega
        · intro hc; cases hc
          simp only [List.length_cons] at h
          omega
      rw [if_neg hne]
      exact ih (i + 1) hnext
    · have hkf : hasDedupKey k d = false := by simpa using hkey
      by_cases hd : isDedupAction d.action = true
      · simp only [dedupeAux, hd, if_true]
        split_ifs with h
        · rw [List.filter_cons]
          simp only [hkf, Bool.false_eq_true, if_false]
          exact ih (i + 1) hnext
        · exact ih (i + 1) hnext
      · simp only [dedupeAux, if_neg hd]
        rw [List.filter_cons]
        simp only [hkf, Bool.false_eq_true, if_false]
        exact ih (i + 1) hnext

theorem lastIndexMapAux_append (xs ys : List Decision) :
    ∀ (i : Nat) (m : List (String × Nat)),
      lastIndexMapAux i (xs ++ ys) m
        = lastIndexMapAux (i + xs.length) ys (lastIndexMapAux i xs m) := by
  induction xs with
  | nil => intro i m; simp [lastIndexMapAux]
  | cons d rest ih =>
    intro i m
    simp only [List.cons_append, lastIndexMapAux, List.length_cons,
      List.append_eq]
    rw [ih]
    congr 1
    omega

theorem dedupeAux_append (M : List (String × Nat)) (xs ys : List Decision) :
    ∀ (i : Nat),
      dedupeAux M i (xs ++ ys)
        = dedupeAux M i xs ++ dedupeAux M (i + xs.length) ys := by
  induction xs with
  | nil => intro i; simp [dedupeAux]
  | cons d rest ih =>
    intro i
    simp only [List.cons_append, dedupeAux, List.length_cons, List.append_eq]
    have harith : i + (rest.length + 1) = (i + 1) + rest.length := by omega
    split_ifs
    · rw [harith, ih (i + 1), List.cons_append]
    · rw [harith, ih (i + 1)]
    · rw [harith, ih (i + 1), List.cons_append]

theorem lastIndexMap_concat (l' : List Decision) (d : Decision) :
    lastIndexMap (l' ++ [d])
      = if isDedupAction d.action then (dedupKey d, l'.length) :: lastIndexMap l'
        else lastIndexMap l' := by
  unfold lastIndexMap
  rw [lastIndexMapAux_append]
  simp [lastIndexMapAux]

theorem deduplicate_filter_key (l : List Decision) (k : String) :
    (deduplicateDecisions l).filter (hasDedupKey k)
      = ((l.filter (hasDedupKey k)).getLast?).toList := by
  induction l using List.reverseRecOn with
  | nil => rfl
  | append_singleton l' d ih =>
    have hsplit : deduplicateDecisions (l' ++ [d])
        = dedupeAux (lastIndexMap (l' ++ [d])) 0 l'
          ++ dedupeAux (lastIndexMap (l' ++ [d])) l'.length [d] := by
      unfold deduplicateDecisions
      rw [dedupeAux_append]
      simp
    by_cases hkey : hasDedupKey k d = true
    · obtain ⟨hd, hk⟩ := hasDedupKey_true.mp hkey
      have hM : lastIndexMap (l' ++ [d]) = (k, l'.length) :: lastIndexMap l' := by
        rw [lastIndexMap_concat, if_pos hd, hk]
      have hlook : mapLookup (lastIndexMap (l' ++ [d])) k = some l'.length := by
        rw [hM]
        simp [mapLookup]
      have hfirst : (dedupeAux (lastIndexMap (l' ++ [d])) 0 l').filter
          (hasDedupKey k) = [] := by
        refine dedupeAux_filter_key_out _ k l'.length hlook l' 0 ?_
        right
        omega
      have hsecond : dedupeAux (lastIndexMap (l' ++ [d])) l'.length [d] = [d] := by
        simp only [dedupeAux, hd, if_true, hk, hlook, if_pos]
      rw [hsplit, List.filter_append, hfirst, hsecond, List.nil_append]
      rw [List.filter_append]
      simp only [List.filter_cons, hkey, if_true, List.filter_nil]
      rw [List.getLast?_concat]
      simp [hkey]
    · have hkf : hasDedupKey k d = false := by simpa using hkey
      have hcongr : (dedupeAux (lastIndexMap (l' ++ [d])) 0 l').filter
          (hasDedupKey k)
          = (dedupeAux (lastIndexMap l') 0 l').filter (hasDedupKey k) := by
        refine dedupeAux_filter_key_congr _ _ k ?_ l' 0
        rw [lastIndexMap_concat]
        split_ifs with hd
        · have hne : dedupKey d ≠ k := by
            intro hc
            exact hkey (hasDedupKey_true.mpr ⟨hd, hc⟩)
          simp [mapLookup, hne]
        · rfl
      have hsecond : (dedupeAux (lastIndexMap (l' ++ [d])) l'.length [d]).filter
          (hasDedupKey k) = [] := by
        simp only [dedupeAux]
        split_ifs <;> simp [List.filter_cons, hkf]
      unfold deduplicateDecisions at ih
      rw [hsplit, List.filter_append, hsecond, List.append_nil, hcongr, ih]
      rw [List.filter_append]
      simp only [List.filter_cons, hkf, Bool.false_eq_true, if_false,
        List.filter_nil, List.append_nil]
/-- C7 (amended): the pipeline output is sorted by priority (every close
precedes every open, which precede every hold/wait, with updates last),
is drawn from a permutation of the input, keeps at most one `update_sl`
and one `update_tp` per symbol — namely the LAST occurrence of each in
the SORTED list (not necessarily in the original input, since the
exchange sort is unstable) — and preserves all non-update decisions of
the sorted list. -/
theorem c7_amended (l : List Decision) :
    List.Perm (sortDecisionsByPriority l) l ∧
    (decisionPipeline l).Pairwise
      (fun a b => getActionPriority a.action ≤ getActionPriority b.action) ∧
    (∀ k : String,
      (decisionPipeline l).filter (hasDedupKey k)
        = (((sortDecisionsByPriority l).filter (hasDedupKey k)).getLast?).toList ∧
      ((decisionPipeline l).filter (hasDedupKey k)).length ≤ 1) ∧
    (decisionPipeline l).filter (fun d => !isDedupAction d.action)
      = (sortDecisionsByPriority l).filter (fun d => !isDedupAction d.action) := by
  refine ⟨sortDecisions_perm l, ?_, ?_, ?_⟩
  · exact List.Pairwise.sublist (dedupeAux_sublist _ _ 0) (sortDecisions_sorted l)
  · intro k
    constructor
    · exact deduplicate_filter_key _ k
    · show (List.filter (hasDedupKey k)
          (deduplicateDecisions (sortDecisionsByPriority l))).length ≤ 1
      rw [deduplicate_filter_key _ k]
      cases ((sortDecisionsByPriority l).filter (hasDedupKey k)).getLast? <;> simp
  · exact dedupeAux_filter_nondedup _ _ 0

/-- C7: refuted in its "last occurrence of each in the input" clause —
for the input `[update_sl A stop 100, update_sl A stop 200, close B]`
the unstable exchange sort swaps the first update with the close
(producing `[close, stop 200, stop 100]`), and deduplication then keeps
the stop-100 update: the survivor is NOT the last occurrence in the
input (which is the stop-200 update). -/
theorem c7_counterexample :
    decisionPipeline [c7UpdateA1, c7UpdateA2, c7CloseB] = [c7CloseB, c7UpdateA1] ∧
    ([c7UpdateA1, c7UpdateA2, c7CloseB].filter
        (hasDedupKey "AAAUSDT_update_sl")).getLast? = some c7UpdateA2 ∧
    c7UpdateA1 ≠ c7UpdateA2 := by
  refine ⟨?_, ?_, ?_⟩ <;> decide

/-- C9: refuted as stated — a FAILED force close still deletes the
per-position close-lock entry, because `forceClosePosition` registers
`defer cleanupClosingLock(posKey)` (line 1631), which runs on every
return path.  Concretely: an unmarked position whose market close order
fails ends with outcome `errClose`, the lock entry gone, and only the
forced-registry stamp left to throttle retries. -/
theorem c9_counterexample :
    forceClosePosition
        { markTime := none, now := 0, lockPresentBefore := false,
          marketOk := true, closeOk := false }
      = (.errClose, false, some 0) := by
  rfl

/-- C9 (amended): on the AI close paths the lock entry is retained on
failure and deleted only on success, exactly as claimed; but on the
force-close path (watchdog and account-level risk, both via
`forceClosePosition`) the lock entry is deleted on every completed
attempt, success or failure — failed force-close retries are serialized
by the forced-close registry cool-down stamp instead. -/
theorem c9_amended :
    (∀ inp : CloseInput, inp.alreadyForced = false →
      (((executeCloseLong inp).1 = .errMarket ∨
          (executeCloseLong inp).1 = .errClose) →
        (executeCloseLong inp).2 = true) ∧
      ((executeCloseLong inp).1 = .success →
        (executeCloseLong inp).2 = false)) ∧
    (∀ inp : ForceCloseInput,
      (forceClosePosition inp).1 ≠ .skippedMarked →
      (forceClosePosition inp).2.1 = false) := by
  constructor
  · intro inp hforced
    unfold executeCloseLong
    rw [if_neg (by simp [hforced])]
    split_ifs <;> simp
  · intro inp
    unfold forceClosePosition
    rcases inp.markTime with _ | t
    · intro _; split_ifs <;> simp
    · intro hskip
      dsimp only at hskip ⊢
      by_cases hm : inp.now - t > PositionStopLossRetryTimeoutSec
      · rw [if_neg (not_not_intro hm)] at hskip ⊢
        split_ifs <;> simp
      · rw [if_pos hm] at hskip
        simp at hskip

/-- C9 (witness): the amended theorem at concrete inputs — a failed AI
close keeps the lock, a successful one releases it, and a failed force
close releases it. -/
theorem c9_witness :
    (executeCloseLong
        { alreadyForced := false, lockPresentBefore := false,
          marketOk := true, closeOk := false }).2 = true ∧
    (forceClosePosition
        { markTime := none, now := 7, lockPresentBefore := true,
          marketOk := true, closeOk := false }).2.1 = false :=
  ⟨(c9_amended.1
      { alreadyForced := false, lockPresentBefore := false,
        marketOk := true, closeOk := false } rfl).1 (Or.inr rfl),
   c9_amended.2
      { markTime := none, now := 7, lockPresentBefore := true,
        marketOk := true, closeOk := false } (by decide)⟩

end Nofx
